import Mathlib

/-!
Verification development for the VRCamOSC repository.

The Python sources are shallowly embedded in Lean:

* Python `dict`s become association lists (`Dict α β`) with insertion-order
  preserving update (`dinsert`), deletion (`ddel`) and lookup (`dget`),
  matching CPython dict semantics (update in place keeps position, a fresh
  key is appended at the end).
* Python `float`s become `ℚ` (every value manipulated by the program is a
  finite float, and the arithmetic used — comparison, subtraction,
  `max`/`min` clamping, JSON round-trip — is exact on those values).
* `time.time()` timestamps become explicit `ℚ` arguments.
* Methods that mutate `self` become functions `State → ... → State` (paired
  with the returned `Bool` where the source returns one).
* File, console and network I/O (the `print` calls, `json.dump` to disk,
  actual UDP sends) is outside the embedded state; the data that would be
  written is what the corresponding Lean function returns.
-/

namespace VRCamOSC

/-! ## Association-list model of Python dicts -/

/-- A Python `dict`, as an insertion-ordered association list with unique keys. -/
abbrev Dict (α β : Type) := List (α × β)

/-- `d[k]` lookup returning `none` when the key is absent. -/
def dget {α β : Type} [DecidableEq α] : Dict α β → α → Option β
  | [], _ => none
  | (k', v) :: rest, k => if k' = k then some v else dget rest k

/-- `d[k] = v`: replace in place when `k` is present, append otherwise
(CPython dicts keep the position of an updated key). -/
def dinsert {α β : Type} [DecidableEq α] : Dict α β → α → β → Dict α β
  | [], k, v => [(k, v)]
  | (k', v') :: rest, k, v =>
    if k' = k then (k, v) :: rest else (k', v') :: dinsert rest k v

/-- `del d[k]` / `d.pop(k, None)`: drop every pair whose key is `k`. -/
def ddel {α β : Type} [DecidableEq α] : Dict α β → α → Dict α β
  | [], _ => []
  | (k', v') :: rest, k =>
    if k' = k then ddel rest k else (k', v') :: ddel rest k

/-- The key set of a dict, in insertion order. -/
def dkeys {α β : Type} (d : Dict α β) : List α := d.map Prod.fst

theorem dkeys_cons {α β : Type} (p : α × β) (d : Dict α β) :
    dkeys (p :: d) = p.1 :: dkeys d := rfl

theorem dget_isSome_iff {α β : Type} [DecidableEq α] (d : Dict α β) (k : α) :
    (dget d k).isSome ↔ k ∈ dkeys d := by
  induction d with
  | nil => simp [dget, dkeys]
  | cons p rest ih =>
    obtain ⟨k', v⟩ := p
    rw [dkeys_cons]
    by_cases h : k' = k
    · subst h
      simp [dget]
    · rw [dget, if_neg h, List.mem_cons]
      constructor
      · intro hi
        exact Or.inr (ih.mp hi)
      · intro hm
        rcases hm with he | hm'
        · exact absurd he.symm h
        · exact ih.mpr hm'

theorem mem_dkeys_dinsert {α β : Type} [DecidableEq α] (d : Dict α β) (k : α) (v : β)
    (k' : α) (h : k' ∈ dkeys (dinsert d k v)) : k' ∈ dkeys d ∨ k' = k := by
  induction d with
  | nil =>
    rw [dinsert, dkeys_cons, List.mem_cons] at h
    rcases h with h | h
    · exact Or.inr h
    · exact absurd h (by simp [dkeys])
  | cons p rest ih =>
    obtain ⟨k₀, v₀⟩ := p
    by_cases hk : k₀ = k
    · subst hk
      rw [dinsert, if_pos rfl, dkeys_cons, List.mem_cons] at h
      rcases h with h | h
      · exact Or.inr h
      · exact Or.inl (by rw [dkeys_cons, List.mem_cons]; exact Or.inr h)
    · rw [dinsert, if_neg hk, dkeys_cons, List.mem_cons] at h
      rcases h with h | h
      · exact Or.inl (by rw [dkeys_cons, List.mem_cons]; exact Or.inl h)
      · rcases ih h with h' | h'
        · exact Or.inl (by rw [dkeys_cons, List.mem_cons]; exact Or.inr h')
        · exact Or.inr h'

theorem mem_dkeys_ddel {α β : Type} [DecidableEq α] (d : Dict α β) (k : α)
    (k' : α) (h : k' ∈ dkeys (ddel d k)) : k' ∈ dkeys d := by
  induction d with
  | nil => simp [ddel, dkeys] at h
  | cons p rest ih =>
    obtain ⟨k₀, v₀⟩ := p
    rw [dkeys_cons, List.mem_cons]
    by_cases hk : k₀ = k
    · subst hk
      rw [ddel, if_pos rfl] at h
      exact Or.inr (ih h)
    · rw [ddel, if_neg hk, dkeys_cons, List.mem_cons] at h
      rcases h with h | h
      · exact Or.inl h
      · exact Or.inr (ih h)

theorem dget_dinsert_self {α β : Type} [DecidableEq α] (d : Dict α β) (k : α) (v : β) :
    dget (dinsert d k v) k = some v := by
  induction d with
  | nil => simp [dinsert, dget]
  | cons p rest ih =>
    obtain ⟨k₀, v₀⟩ := p
    by_cases hk : k₀ = k
    · subst hk
      simp [dinsert, dget]
    · simp [dinsert, dget, hk, ih]

theorem mem_dinsert {α β : Type} [DecidableEq α] (d : Dict α β) (k : α) (v : β)
    (p : α × β) (h : p ∈ dinsert d k v) : p ∈ d ∨ p = (k, v) := by
  induction d with
  | nil =>
    rw [dinsert, List.mem_singleton] at h
    exact Or.inr h
  | cons q rest ih =>
    obtain ⟨k₀, v₀⟩ := q
    by_cases hk : k₀ = k
    · subst hk
      rw [dinsert, if_pos rfl, List.mem_cons] at h
      rcases h with h | h
      · exact Or.inr h
      · exact Or.inl (List.mem_cons_of_mem _ h)
    · rw [dinsert, if_neg hk, List.mem_cons] at h
      rcases h with h | h
      · exact Or.inl (by simp [h])
      · rcases ih h with h' | h'
        · exact Or.inl (List.mem_cons_of_mem _ h')
        · exact Or.inr h'

theorem mem_ddel {α β : Type} [DecidableEq α] (d : Dict α β) (k : α)
    (p : α × β) (h : p ∈ ddel d k) : p ∈ d := by
  induction d with
  | nil => simp [ddel] at h
  | cons q rest ih =>
    obtain ⟨k₀, v₀⟩ := q
    by_cases hk : k₀ = k
    · subst hk
      rw [ddel, if_pos rfl] at h
      exact List.mem_cons_of_mem _ (ih h)
    · rw [ddel, if_neg hk, List.mem_cons] at h
      rcases h with h | h
      · simp [h]
      · exact List.mem_cons_of_mem _ (ih h)

theorem dinsert_eq_append {α β : Type} [DecidableEq α] (d : Dict α β) (k : α) (v : β)
    (h : k ∉ dkeys d) : dinsert d k v = d ++ [(k, v)] := by
  induction d with
  | nil => simp [dinsert]
  | cons q rest ih =>
    obtain ⟨k₀, v₀⟩ := q
    rw [dkeys_cons, List.mem_cons] at h
    push_neg at h
    rw [dinsert, if_neg (fun hk => h.1 hk.symm)]
    rw [ih h.2]
    simp

/-! ## keyboard_handler.py — the binding table and press tracking state

`KeyboardHandler.__init__` fields that the claims touch.  The pynput
listener object, the monitoring flag and the config-file path are process
resources outside the embedded state. -/

structure KeyboardHandler where
  pressed_keys : List Nat
  key_press_times : Dict Nat ℚ
  long_press_threshold : ℚ
  key_bindings : Dict Nat Nat
  vk_to_pin : Dict Nat Nat
  special_key_bindings : Dict String Nat
  vk_to_special : Dict Nat String
  flight_mode_enabled : Bool
  lookatme_enabled : Bool

/-- The freshly constructed handler, before `load_config` runs. -/
def initHandler : KeyboardHandler where
  pressed_keys := []
  key_press_times := []
  long_press_threshold := 0.8
  key_bindings := []
  vk_to_pin := []
  special_key_bindings := []
  vk_to_special := []
  flight_mode_enabled := false
  lookatme_enabled := false

/-- `KeyboardHandler.setup_default_bindings`: slots 1–9 get VK codes
`96 + pin` (numpad 1–9), the four named actions get the numpad operator
keys; both reverse maps are rebuilt.  (The `save_config()` call at the end
writes to disk and does not change the in-memory state.) -/
def setup_default_bindings (kh : KeyboardHandler) : KeyboardHandler :=
  { kh with
    key_bindings := (List.range 9).map (fun i => (i + 1, 96 + (i + 1)))
    vk_to_pin := (List.range 9).map (fun i => (96 + (i + 1), i + 1))
    special_key_bindings :=
      [("copy_current", 110), ("move_clipboard", 96),
       ("toggle_flight", 111), ("toggle_lookatme", 106)]
    vk_to_special :=
      [(110, "copy_current"), (96, "move_clipboard"),
       (111, "toggle_flight"), (106, "toggle_lookatme")] }

/-- The handler state holding the default bindings. -/
def defaultHandler : KeyboardHandler := setup_default_bindings initHandler

/-- `KeyboardHandler.set_key_binding`.  `vk_code` is the result of
`_get_vk_code(key_obj)` (`none` when the key object carries no VK code).
Returns the mutated handler and the source's boolean result. -/
def KeyboardHandler.set_key_binding (kh : KeyboardHandler) (pin_number : Nat)
    (vk_code : Option Nat) : KeyboardHandler × Bool :=
  if ¬(1 ≤ pin_number ∧ pin_number ≤ 9) then (kh, false)
  else
    match vk_code with
    | none => (kh, false)
    | some vk =>
      if (dget kh.vk_to_special vk).isSome then (kh, false)
      else
        let kh1 :=
          match dget kh.key_bindings pin_number with
          | some old_vk =>
            if (dget kh.vk_to_pin old_vk).isSome then
              { kh with vk_to_pin := ddel kh.vk_to_pin old_vk }
            else kh
          | none => kh
        ({ kh1 with
            key_bindings := dinsert kh1.key_bindings pin_number vk
            vk_to_pin := dinsert kh1.vk_to_pin vk pin_number }, true)

/-- The `valid_actions` list of `set_special_key_binding`. -/
def validActions : List String :=
  ["copy_current", "move_clipboard", "toggle_flight", "toggle_lookatme"]

/-- `KeyboardHandler.set_special_key_binding`. -/
def KeyboardHandler.set_special_key_binding (kh : KeyboardHandler) (action : String)
    (vk_code : Option Nat) : KeyboardHandler × Bool :=
  if action ∉ validActions then (kh, false)
  else
    match vk_code with
    | none => (kh, false)
    | some vk =>
      if (dget kh.vk_to_pin vk).isSome then (kh, false)
      else
        let kh1 :=
          match dget kh.special_key_bindings action with
          | some old_vk =>
            if (dget kh.vk_to_special old_vk).isSome then
              { kh with vk_to_special := ddel kh.vk_to_special old_vk }
            else kh
          | none => kh
        ({ kh1 with
            special_key_bindings := dinsert kh1.special_key_bindings action vk
            vk_to_special := dinsert kh1.vk_to_special vk action }, true)

/-- `KeyboardHandler.remove_key_binding`. -/
def KeyboardHandler.remove_key_binding (kh : KeyboardHandler) (pin_number : Nat) :
    KeyboardHandler × Bool :=
  match dget kh.key_bindings pin_number with
  | some vk_code =>
    let kh1 :=
      if (dget kh.vk_to_pin vk_code).isSome then
        { kh with vk_to_pin := ddel kh.vk_to_pin vk_code }
      else kh
    ({ kh1 with key_bindings := ddel kh1.key_bindings pin_number }, true)
  | none => (kh, false)

/-- `KeyboardHandler.remove_special_key_binding`. -/
def KeyboardHandler.remove_special_key_binding (kh : KeyboardHandler) (action : String) :
    KeyboardHandler × Bool :=
  match dget kh.special_key_bindings action with
  | some vk_code =>
    let kh1 :=
      if (dget kh.vk_to_special vk_code).isSome then
        { kh with vk_to_special := ddel kh.vk_to_special vk_code }
      else kh
    ({ kh1 with special_key_bindings := ddel kh1.special_key_bindings action }, true)
  | none => (kh, false)

/-- One mutating operation on the binding table. -/
inductive BindOp where
  | setKey (pin_number : Nat) (vk_code : Option Nat)
  | setSpecial (action : String) (vk_code : Option Nat)
  | removeKey (pin_number : Nat)
  | removeSpecial (action : String)

/-- Apply one binding-table operation, keeping the resulting state
(both success and failure paths). -/
def applyBindOp (kh : KeyboardHandler) : BindOp → KeyboardHandler
  | .setKey pin vk => (kh.set_key_binding pin vk).1
  | .setSpecial action vk => (kh.set_special_key_binding action vk).1
  | .removeKey pin => (kh.remove_key_binding pin).1
  | .removeSpecial action => (kh.remove_special_key_binding action).1

/-- Apply a sequence of binding-table operations. -/
def runBindOps (kh : KeyboardHandler) : List BindOp → KeyboardHandler
  | [] => kh
  | op :: rest => runBindOps (applyBindOp kh op) rest

/-- `KeyboardHandler._handle_key_press`; `now` is `time.time()`. -/
def handle_key_press (kh : KeyboardHandler) (vk_code : Nat) (now : ℚ) : KeyboardHandler :=
  if vk_code ∈ kh.pressed_keys then kh
  else
    { kh with
        pressed_keys := vk_code :: kh.pressed_keys
        key_press_times := dinsert kh.key_press_times vk_code now }

/-- The action `_handle_key_release` dispatches to: `_save_pin` on a long
press of a pin key, `_move_to_pin` on a short press, or
`_handle_special_action` for a special-function key. -/
inductive Outcome where
  | savePin (pin_number : Nat)
  | moveToPin (pin_number : Nat)
  | specialAction (action : String)

/-- `KeyboardHandler._handle_key_release`; returns the mutated handler and
the dispatched outcome, if any. -/
def handle_key_release (kh : KeyboardHandler) (vk_code : Nat) (now : ℚ) :
    KeyboardHandler × Option Outcome :=
  if vk_code ∈ kh.pressed_keys then
    let kh1 := { kh with pressed_keys := kh.pressed_keys.erase vk_code }
    match dget kh1.key_press_times vk_code with
    | some pressed_at =>
      let press_duration := now - pressed_at
      let kh2 := { kh1 with key_press_times := ddel kh1.key_press_times vk_code }
      match dget kh2.vk_to_pin vk_code with
      | some pin_number =>
        if press_duration ≥ kh2.long_press_threshold then
          (kh2, some (.savePin pin_number))
        else
          (kh2, some (.moveToPin pin_number))
      | none =>
        match dget kh2.vk_to_special vk_code with
        | some action => (kh2, some (.specialAction action))
        | none => (kh2, none)
    | none => (kh1, none)
  else (kh, none)

/-! ## pin_system.py — OSCController sends -/

/-- `OSCController`: only the presence of the UDP client matters to the
embedded behavior (`client` is `None` when python-osc failed to
initialize). -/
structure OSCController where
  client : Bool

/-- `OSCController.send_flying_mode`: `False` when no client is
available; otherwise the message is handed to the UDP transport, whose
`send_message` call may raise — `transport_ok` is that environment
outcome, and the `except Exception` branch turns a raise into `False`. -/
def OSCController.send_flying_mode (osc : OSCController) (_enabled : Bool)
    (transport_ok : Bool) : Bool :=
  if ¬osc.client then false
  else if transport_ok then true else false

/-- `OSCController.send_lookatme`, with the same `except Exception`
branch modelled by `transport_ok`. -/
def OSCController.send_lookatme (osc : OSCController) (_enabled : Bool)
    (transport_ok : Bool) : Bool :=
  if ¬osc.client then false
  else if transport_ok then true else false

/-- `KeyboardHandler._toggle_flight_mode`: optimistically flip the flag,
then — only if the OSC client exists — send it (the send's boolean result
is discarded by the source); otherwise flip the flag back.  The returned
boolean records whether the toggle reported success (the `✈️` status
print) or failure (the `❌` print). -/
def toggle_flight_mode (kh : KeyboardHandler) (osc : OSCController)
    (transport_ok : Bool) : KeyboardHandler × Bool :=
  let kh1 := { kh with flight_mode_enabled := !kh.flight_mode_enabled }
  if osc.client then
    let _sent := osc.send_flying_mode kh1.flight_mode_enabled transport_ok
    (kh1, true)
  else
    ({ kh1 with flight_mode_enabled := !kh1.flight_mode_enabled }, false)

/-- `KeyboardHandler._toggle_lookatme`. -/
def toggle_lookatme (kh : KeyboardHandler) (osc : OSCController)
    (transport_ok : Bool) : KeyboardHandler × Bool :=
  let kh1 := { kh with lookatme_enabled := !kh.lookatme_enabled }
  if osc.client then
    let _sent := osc.send_lookatme kh1.lookatme_enabled transport_ok
    (kh1, true)
  else
    ({ kh1 with lookatme_enabled := !kh1.lookatme_enabled }, false)

/-! ## camera_data_utils.py — data model and validation -/

/-- `Position` dataclass. -/
structure Position where
  x : ℚ := 0.0
  y : ℚ := 0.0
  z : ℚ := 0.0

/-- `Rotation` dataclass. -/
structure Rotation where
  rx : ℚ := 0.0
  ry : ℚ := 0.0
  rz : ℚ := 0.0

/-- `CameraParams` dataclass. -/
structure CameraParams where
  zoom : ℚ := 45.0
  focal_distance : ℚ := 1.5
  aperture : ℚ := 15.0
  exposure : ℚ := 0.0

/-- `CameraState` dataclass. -/
structure CameraState where
  position : Position
  rotation : Rotation
  camera_params : CameraParams

/-- `CameraParamsValidator.ZOOM_RANGE`. -/
def ZOOM_RANGE : ℚ × ℚ := (20.0, 150.0)

/-- `CameraParamsValidator.FOCAL_DISTANCE_RANGE`. -/
def FOCAL_DISTANCE_RANGE : ℚ × ℚ := (0.0, 10.0)

/-- `CameraParamsValidator.APERTURE_RANGE`. -/
def APERTURE_RANGE : ℚ × ℚ := (1.4, 32.0)

/-- `CameraParamsValidator.EXPOSURE_RANGE`. -/
def EXPOSURE_RANGE : ℚ × ℚ := (-10.0, 4.0)

/-- `CameraParamsValidator.validate_zoom`: `max(lo, min(hi, zoom))`. -/
def validate_zoom (zoom : ℚ) : ℚ := max ZOOM_RANGE.1 (min ZOOM_RANGE.2 zoom)

/-- `CameraParamsValidator.validate_focal_distance`. -/
def validate_focal_distance (focal_distance : ℚ) : ℚ :=
  max FOCAL_DISTANCE_RANGE.1 (min FOCAL_DISTANCE_RANGE.2 focal_distance)

/-- `CameraParamsValidator.validate_aperture`. -/
def validate_aperture (aperture : ℚ) : ℚ :=
  max APERTURE_RANGE.1 (min APERTURE_RANGE.2 aperture)

/-- `CameraParamsValidator.validate_exposure`. -/
def validate_exposure (exposure : ℚ) : ℚ :=
  max EXPOSURE_RANGE.1 (min EXPOSURE_RANGE.2 exposure)

/-- `CameraParamsValidator.validate_camera_params`. -/
def validate_camera_params (params : CameraParams) : CameraParams where
  zoom := validate_zoom params.zoom
  focal_distance := validate_focal_distance params.focal_distance
  aperture := validate_aperture params.aperture
  exposure := validate_exposure params.exposure

/-! ## JSON values

`json.dumps` / `json.loads` round-trip a tree of objects, numbers and
strings losslessly (finite floats serialize via `repr` and parse back to
the identical value), so the clipboard and data-file payloads are embedded
at the JSON-value level rather than as character strings. -/

/-- A JSON value as produced and consumed by the program: an object, a
number, or a string. -/
inductive JValue where
  | jstr (s : String)
  | jnum (q : ℚ)
  | jobj (fields : List (String × JValue))

/-- A numeric field read out of a Python dict: missing keys take the
dataclass default, a present non-numeric value is a type error. -/
def fieldNum (d : Dict String JValue) (key : String) (default : ℚ) : Option ℚ :=
  match dget d key with
  | none => some default
  | some (JValue.jnum q) => some q
  | some _ => none

/-- `data.get(key, \x7b\x7d)` followed by keyword expansion: a missing key
yields the empty dict, a present non-object value is a type error. -/
def subObj (data : Dict String JValue) (key : String) : Option (Dict String JValue) :=
  match dget data key with
  | none => some []
  | some (JValue.jobj fields) => some fields
  | some _ => none

/-- `Position(**d)` with the dataclass defaults. -/
def Position.from_fields (d : Dict String JValue) : Option Position := do
  let x ← fieldNum d "x" 0.0
  let y ← fieldNum d "y" 0.0
  let z ← fieldNum d "z" 0.0
  return { x := x, y := y, z := z }

/-- `Rotation(**d)` with the dataclass defaults. -/
def Rotation.from_fields (d : Dict String JValue) : Option Rotation := do
  let rx ← fieldNum d "rx" 0.0
  let ry ← fieldNum d "ry" 0.0
  let rz ← fieldNum d "rz" 0.0
  return { rx := rx, ry := ry, rz := rz }

/-- `CameraParams(**d)` with the dataclass defaults. -/
def CameraParams.from_fields (d : Dict String JValue) : Option CameraParams := do
  let zoom ← fieldNum d "zoom" 45.0
  let focal_distance ← fieldNum d "focal_distance" 1.5
  let aperture ← fieldNum d "aperture" 15.0
  let exposure ← fieldNum d "exposure" 0.0
  return { zoom := zoom, focal_distance := focal_distance,
           aperture := aperture, exposure := exposure }

/-- `CameraState.from_dict`; `none` models the `TypeError` raised when a
sub-value is not a dict or a field is not a number (callers catch it). -/
def CameraState.from_dict (data : Dict String JValue) : Option CameraState := do
  let pd ← subObj data "position"
  let position ← Position.from_fields pd
  let rd ← subObj data "rotation"
  let rotation ← Rotation.from_fields rd
  let cd ← subObj data "camera_params"
  let camera_params ← CameraParams.from_fields cd
  return { position := position, rotation := rotation, camera_params := camera_params }

/-- `asdict(position)`. -/
def Position.asdict (p : Position) : Dict String JValue :=
  [("x", .jnum p.x), ("y", .jnum p.y), ("z", .jnum p.z)]

/-- `asdict(rotation)`. -/
def Rotation.asdict (r : Rotation) : Dict String JValue :=
  [("rx", .jnum r.rx), ("ry", .jnum r.ry), ("rz", .jnum r.rz)]

/-- `asdict(camera_params)`. -/
def CameraParams.asdict (p : CameraParams) : Dict String JValue :=
  [("zoom", .jnum p.zoom), ("focal_distance", .jnum p.focal_distance),
   ("aperture", .jnum p.aperture), ("exposure", .jnum p.exposure)]

/-- `CameraState.to_dict`. -/
def CameraState.to_dict (s : CameraState) : Dict String JValue :=
  [("position", .jobj s.position.asdict),
   ("rotation", .jobj s.rotation.asdict),
   ("camera_params", .jobj s.camera_params.asdict)]

/-- `create_clipboard_data`: the tagged JSON object handed to
`json.dumps`. -/
def create_clipboard_data (state : CameraState) (pin_number : Option Nat := none) :
    JValue :=
  .jobj
    ([("type", .jstr "vrchat_camera_state"),
      ("position", .jobj state.position.asdict),
      ("rotation", .jobj state.rotation.asdict),
      ("camera_params", .jobj state.camera_params.asdict)] ++
     (match pin_number with
      | some n => [("pin_number", .jnum n)]
      | none => []))

/-- `parse_clipboard_data` applied to the JSON value decoded from the
clipboard text (text that fails to decode as JSON never reaches these
checks). -/
def parse_clipboard_data (j : JValue) : Option CameraState :=
  match j with
  | .jobj data =>
    if (match dget data "type" with
        | some (.jstr t) => t == "vrchat_camera_state"
        | _ => false) &&
       (dget data "position").isSome &&
       (dget data "rotation").isSome &&
       (dget data "camera_params").isSome then
      CameraState.from_dict data
    else
      none
  | _ => none

/-! ## pin_system.py — OSCReceiver state -/

/-- `OSCReceiver` mutable state: the cached pose list, the
`current_params` dict (its numeric entries — the boolean flag entries are
untouched by the pose path and by `get_current_state`), and the update
timestamp. -/
structure OSCReceiver where
  current_pose : Option (List ℚ)
  current_params : Dict String ℚ
  last_update_time : ℚ

/-- `OSCReceiver._handle_pose`: a message with at least six arguments
replaces the cached pose; anything shorter is ignored. -/
def OSCReceiver.handle_pose (r : OSCReceiver) (args : List ℚ) (now : ℚ) : OSCReceiver :=
  if args.length ≥ 6 then
    { r with current_pose := some (args.take 6), last_update_time := now }
  else r

/-- `OSCReceiver.get_current_state`: `None` without a (long enough) cached
pose, otherwise a `CameraState` assembled from the pose and the cached
parameters with the dataclass defaults. -/
def OSCReceiver.get_current_state (r : OSCReceiver) : Option CameraState :=
  match r.current_pose with
  | none => none
  | some pose =>
    if pose.length < 6 then none
    else
      some
        { position := { x := pose.getD 0 0, y := pose.getD 1 0, z := pose.getD 2 0 }
          rotation := { rx := pose.getD 3 0, ry := pose.getD 4 0, rz := pose.getD 5 0 }
          camera_params :=
            { zoom := (dget r.current_params "zoom").getD 45.0
              focal_distance := (dget r.current_params "focal_distance").getD 1.5
              aperture := (dget r.current_params "aperture").getD 15.0
              exposure := (dget r.current_params "exposure").getD 0.0 } }

/-! ## camera_data_utils.py — CameraDataManager -/

/-- `CameraDataManager` mutable state (the data-file path is a process
resource). -/
structure CameraDataManager where
  pin_states : Dict Nat CameraState
  descriptions : Dict Nat String

/-- `CameraDataManager.save_pin_state` (the trailing `save_data()` writes
the same state to disk). -/
def save_pin_state (m : CameraDataManager) (pin_number : Nat) (state : CameraState)
    (description : String) : CameraDataManager × Bool :=
  if ¬(1 ≤ pin_number ∧ pin_number ≤ 9) then (m, false)
  else
    let validated_params := validate_camera_params state.camera_params
    let validated_state : CameraState :=
      { position := state.position, rotation := state.rotation,
        camera_params := validated_params }
    let m1 := { m with pin_states := dinsert m.pin_states pin_number validated_state }
    let m2 :=
      if description.trim ≠ "" then
        { m1 with descriptions := dinsert m1.descriptions pin_number description.trim }
      else m1
    (m2, true)

/-- `CameraDataManager.delete_pin_state`. -/
def delete_pin_state (m : CameraDataManager) (pin_number : Nat) :
    CameraDataManager × Bool :=
  match dget m.pin_states pin_number with
  | some _ =>
    ({ m with
        pin_states := ddel m.pin_states pin_number
        descriptions := ddel m.descriptions pin_number }, true)
  | none => (m, false)

/-- The `CameraState.from_dict(state_data)` step of
`CameraDataManager.load_data`: decoding fails (and the entry is skipped)
when the stored value is not a JSON object. -/
def stateFromData (state_data : JValue) : Option CameraState :=
  match state_data with
  | JValue.jobj fields => CameraState.from_dict fields
  | _ => none

/-- The `saved_poses` loop of `CameraDataManager.load_data`: each entry
whose key is a slot number in 1–9 and whose value decodes through
`CameraState.from_dict` is stored after re-validating its camera
parameters; malformed entries are skipped.  JSON object keys are strings
in the file; `str`/`int` conversion round-trips for the integer keys the
program writes and is embedded as the identity on `Nat` keys. -/
def load_saved_poses (m : CameraDataManager) : Dict Nat JValue → CameraDataManager
  | [] => m
  | (pin_num, state_data) :: rest =>
    if 1 ≤ pin_num ∧ pin_num ≤ 9 then
      match stateFromData state_data with
      | some state =>
        let clamped : CameraState :=
          { state with camera_params := validate_camera_params state.camera_params }
        load_saved_poses
          { m with pin_states := dinsert m.pin_states pin_num clamped } rest
      | none => load_saved_poses m rest
    else load_saved_poses m rest

/-- The `descriptions` loop of `CameraDataManager.load_data`. -/
def load_descriptions (m : CameraDataManager) : Dict Nat String → CameraDataManager
  | [] => m
  | (pin_num, desc) :: rest =>
    if 1 ≤ pin_num ∧ pin_num ≤ 9 then
      load_descriptions
        { m with descriptions := dinsert m.descriptions pin_num desc } rest
    else load_descriptions m rest

/-- `CameraDataManager.load_data` applied to the decoded data file. -/
def load_data (m : CameraDataManager) (saved_poses : Dict Nat JValue)
    (descriptions : Dict Nat String) : CameraDataManager :=
  load_descriptions (load_saved_poses m saved_poses) descriptions

/-! ## keyboard_handler.py — config persistence -/

/-- The JSON object `KeyboardHandler.save_config` writes.  JSON object
keys are strings in the file; the `str(pin)` / `int(pin_str)` conversion
round-trips for the slot numbers the program uses and is embedded as the
identity on `Nat` keys. -/
structure ConfigData where
  key_bindings_vk : Dict Nat Nat
  special_key_bindings_vk : Dict String Nat
  long_press_threshold : ℚ
  flight_mode_enabled : Bool
  lookatme_enabled : Bool
  version : String

/-- `KeyboardHandler.save_config`: the config object handed to
`json.dump`. -/
def KeyboardHandler.save_config (kh : KeyboardHandler) : ConfigData where
  key_bindings_vk := kh.key_bindings
  special_key_bindings_vk := kh.special_key_bindings
  long_press_threshold := kh.long_press_threshold
  flight_mode_enabled := kh.flight_mode_enabled
  lookatme_enabled := kh.lookatme_enabled
  version := "1.0"

/-- The `key_bindings_vk` loop of `load_config`: entries whose slot number
is in 1–9 populate the fresh forward and reverse maps. -/
def loadPinBindingsLoop :
    Dict Nat Nat → Dict Nat Nat × Dict Nat Nat → Dict Nat Nat × Dict Nat Nat
  | [], acc => acc
  | (pin_num, vk) :: rest, (kb, vp) =>
    if 1 ≤ pin_num ∧ pin_num ≤ 9 then
      loadPinBindingsLoop rest (dinsert kb pin_num vk, dinsert vp vk pin_num)
    else loadPinBindingsLoop rest (kb, vp)

/-- The `special_key_bindings_vk` loop of `load_config`: every entry
populates the fresh forward and reverse maps. -/
def loadSpecialBindingsLoop :
    Dict String Nat → Dict String Nat × Dict Nat String →
      Dict String Nat × Dict Nat String
  | [], acc => acc
  | (action, vk) :: rest, (sb, vs) =>
    loadSpecialBindingsLoop rest (dinsert sb action vk, dinsert vs vk action)

/-- `KeyboardHandler.load_config` on an explicitly passed config object.
Every key of the schema is present in what `save_config` emits, so each
`"..." in config_data` check succeeds and the corresponding section
runs. -/
def KeyboardHandler.load_config (kh : KeyboardHandler) (config_data : ConfigData) :
    KeyboardHandler :=
  let kh1 := { kh with long_press_threshold := config_data.long_press_threshold }
  let pinMaps := loadPinBindingsLoop config_data.key_bindings_vk ([], [])
  let kh2 := { kh1 with key_bindings := pinMaps.1, vk_to_pin := pinMaps.2 }
  let specialMaps := loadSpecialBindingsLoop config_data.special_key_bindings_vk ([], [])
  let kh3 := { kh2 with
                 special_key_bindings := specialMaps.1
                 vk_to_special := specialMaps.2 }
  let kh4 := { kh3 with
                 flight_mode_enabled := config_data.flight_mode_enabled
                 lookatme_enabled := config_data.lookatme_enabled }
  if kh4.key_bindings = [] ∨ kh4.special_key_bindings = [] then
    setup_default_bindings kh4
  else kh4

/-- The reverse map `vk_to_pin` as `load_config` rebuilds it from a
forward pin map. -/
def rebuildVkToPin (kb : Dict Nat Nat) : Dict Nat Nat :=
  kb.foldl (fun acc p => dinsert acc p.2 p.1) []

/-- The reverse map `vk_to_special` as `load_config` rebuilds it from a
forward special-action map. -/
def rebuildVkToSpecial (sb : Dict String Nat) : Dict Nat String :=
  sb.foldl (fun acc p => dinsert acc p.2 p.1) []

/-! ## Theorems -/

/-- Disjointness of the two reverse dispatch maps: no VK code is
simultaneously a key of `vk_to_pin` and of `vk_to_special` (the maps
`_handle_key_release` consults to dispatch a key event).  The forward
tables `key_bindings` / `special_key_bindings` satisfy no such
invariant. -/
def crossDisjoint (kh : KeyboardHandler) : Prop :=
  ∀ vk : Nat, (dget kh.vk_to_pin vk).isSome → (dget kh.vk_to_special vk).isSome → False

theorem crossDisjoint_default : crossDisjoint defaultHandler := by
  intro vk h1 h2
  rw [dget_isSome_iff] at h1 h2
  have h1' : ∃ i, i < 9 ∧ 96 + (i + 1) = vk := by
    simpa [defaultHandler, setup_default_bindings, initHandler, dkeys, List.map_map,
      Function.comp] using h1
  have h2' : vk = 110 ∨ vk = 96 ∨ vk = 111 ∨ vk = 106 := by
    simpa [defaultHandler, setup_default_bindings, initHandler, dkeys] using h2
  obtain ⟨i, hi, hvk⟩ := h1'
  rcases h2' with h | h | h | h <;> omega

theorem crossDisjoint_of_pin_shrink (kh kh' : KeyboardHandler) (vk : Nat)
    (h : crossDisjoint kh)
    (hvs : kh'.vk_to_special = kh.vk_to_special)
    (hguard : ¬(dget kh.vk_to_special vk).isSome)
    (hvp : ∀ u ∈ dkeys kh'.vk_to_pin, u ∈ dkeys kh.vk_to_pin ∨ u = vk) :
    crossDisjoint kh' := by
  intro u h1 h2
  rw [dget_isSome_iff] at h1
  rw [hvs] at h2
  rcases hvp u h1 with hu | hu
  · exact h u ((dget_isSome_iff _ _).mpr hu) h2
  · subst hu
    exact hguard h2

theorem crossDisjoint_of_special_shrink (kh kh' : KeyboardHandler) (vk : Nat)
    (h : crossDisjoint kh)
    (hvp : kh'.vk_to_pin = kh.vk_to_pin)
    (hguard : ¬(dget kh.vk_to_pin vk).isSome)
    (hvs : ∀ u ∈ dkeys kh'.vk_to_special, u ∈ dkeys kh.vk_to_special ∨ u = vk) :
    crossDisjoint kh' := by
  intro u h1 h2
  rw [dget_isSome_iff] at h2
  rw [hvp] at h1
  rcases hvs u h2 with hu | hu
  · exact h u h1 ((dget_isSome_iff _ _).mpr hu)
  · subst hu
    exact hguard h1

theorem crossDisjoint_set_key_binding (kh : KeyboardHandler) (pin : Nat)
    (vk? : Option Nat) (h : crossDisjoint kh) :
    crossDisjoint (kh.set_key_binding pin vk?).1 := by
  unfold KeyboardHandler.set_key_binding
  by_cases hr : 1 ≤ pin ∧ pin ≤ 9
  · rw [if_neg (not_not_intro hr)]
    match vk? with
    | none => exact h
    | some vk =>
      dsimp only
      by_cases hg : (dget kh.vk_to_special vk).isSome
      · simpa [hg] using h
      · rw [if_neg hg]
        match hkb : dget kh.key_bindings pin with
        | none =>
          simp only [hkb]
          refine crossDisjoint_of_pin_shrink kh _ vk h rfl hg ?_
          intro u hu
          exact mem_dkeys_dinsert _ _ _ _ hu
        | some old_vk =>
          simp only [hkb]
          by_cases hold : (dget kh.vk_to_pin old_vk).isSome
          · simp only [if_pos hold]
            refine crossDisjoint_of_pin_shrink kh _ vk h rfl hg ?_
            intro u hu
            rcases mem_dkeys_dinsert _ _ _ _ hu with hu' | hu'
            · exact Or.inl (mem_dkeys_ddel _ _ _ hu')
            · exact Or.inr hu'
          · simp only [if_neg hold]
            refine crossDisjoint_of_pin_shrink kh _ vk h rfl hg ?_
            intro u hu
            exact mem_dkeys_dinsert _ _ _ _ hu
  · simpa [hr] using h

theorem crossDisjoint_set_special_key_binding (kh : KeyboardHandler) (action : String)
    (vk? : Option Nat) (h : crossDisjoint kh) :
    crossDisjoint (kh.set_special_key_binding action vk?).1 := by
  unfold KeyboardHandler.set_special_key_binding
  by_cases hr : action ∈ validActions
  · rw [if_neg (not_not_intro hr)]
    match vk? with
    | none => exact h
    | some vk =>
      dsimp only
      by_cases hg : (dget kh.vk_to_pin vk).isSome
      · simpa [hg] using h
      · rw [if_neg hg]
        match hkb : dget kh.special_key_bindings action with
        | none =>
          simp only [hkb]
          refine crossDisjoint_of_special_shrink kh _ vk h rfl hg ?_
          intro u hu
          exact mem_dkeys_dinsert _ _ _ _ hu
        | some old_vk =>
          simp only [hkb]
          by_cases hold : (dget kh.vk_to_special old_vk).isSome
          · simp only [if_pos hold]
            refine crossDisjoint_of_special_shrink kh _ vk h rfl hg ?_
            intro u hu
            rcases mem_dkeys_dinsert _ _ _ _ hu with hu' | hu'
            · exact Or.inl (mem_dkeys_ddel _ _ _ hu')
            · exact Or.inr hu'
          · simp only [if_neg hold]
            refine crossDisjoint_of_special_shrink kh _ vk h rfl hg ?_
            intro u hu
            exact mem_dkeys_dinsert _ _ _ _ hu
  · simpa [hr] using h

theorem crossDisjoint_remove_key_binding (kh : KeyboardHandler) (pin : Nat)
    (h : crossDisjoint kh) : crossDisjoint (kh.remove_key_binding pin).1 := by
  rw [KeyboardHandler.remove_key_binding]
  match hkb : dget kh.key_bindings pin with
  | none => exact h
  | some vk_code =>
    intro u h1 h2
    by_cases hold : (dget kh.vk_to_pin vk_code).isSome
    · simp only [if_pos hold] at h1 h2
      rw [dget_isSome_iff] at h1
      exact h u ((dget_isSome_iff _ _).mpr (mem_dkeys_ddel _ _ _ h1)) h2
    · simp only [if_neg hold] at h1 h2
      exact h u h1 h2

theorem crossDisjoint_remove_special_key_binding (kh : KeyboardHandler) (action : String)
    (h : crossDisjoint kh) : crossDisjoint (kh.remove_special_key_binding action).1 := by
  rw [KeyboardHandler.remove_special_key_binding]
  match hkb : dget kh.special_key_bindings action with
  | none => exact h
  | some vk_code =>
    intro u h1 h2
    by_cases hold : (dget kh.vk_to_special vk_code).isSome
    · simp only [if_pos hold] at h1 h2
      rw [dget_isSome_iff] at h2
      exact h u h1 ((dget_isSome_iff _ _).mpr (mem_dkeys_ddel _ _ _ h2))
    · simp only [if_neg hold] at h1 h2
      exact h u h1 h2

theorem crossDisjoint_applyBindOp (kh : KeyboardHandler) (op : BindOp)
    (h : crossDisjoint kh) : crossDisjoint (applyBindOp kh op) := by
  cases op with
  | setKey pin vk => exact crossDisjoint_set_key_binding kh pin vk h
  | setSpecial action vk => exact crossDisjoint_set_special_key_binding kh action vk h
  | removeKey pin => exact crossDisjoint_remove_key_binding kh pin h
  | removeSpecial action => exact crossDisjoint_remove_special_key_binding kh action h

theorem crossDisjoint_runBindOps (kh : KeyboardHandler) (ops : List BindOp)
    (h : crossDisjoint kh) : crossDisjoint (runBindOps kh ops) := by
  induction ops generalizing kh with
  | nil => exact h
  | cons op rest ih => exact ih _ (crossDisjoint_applyBindOp kh op h)

/-- First step of the C1 counterexample sequence: bind pin 1 to VK 98
(pin 2's default key), with the reported result. -/
def collideStep1 : KeyboardHandler × Bool :=
  defaultHandler.set_key_binding 1 (some 98)

/-- Second step: rebind pin 2 to the fresh VK 200; this deletes the
`vk_to_pin` entry for VK 98 while pin 1's forward binding keeps it. -/
def collideStep2 : KeyboardHandler × Bool :=
  collideStep1.1.set_key_binding 2 (some 200)

/-- Third step: bind `copy_current` to VK 98; the `vk_to_pin` check no
longer sees VK 98, so the special action takes a key a pin still maps
to. -/
def collideStep3 : KeyboardHandler × Bool :=
  collideStep2.1.set_special_key_binding "copy_current" (some 98)

/-- Claim C1, counterexample: starting from the default bindings, the
single bind `set_key_binding(1, key with VK 98)` succeeds (VK 98 is only
checked against the special-function keys), after which the two distinct
pin actions 1 and 2 both map to VK 98 in the forward binding table; and
after the further successful binds `set_key_binding(2, VK 200)` and
`set_special_key_binding("copy_current", VK 98)`, pin 1 and the special
action `copy_current` — two logical actions of different categories —
both map to VK 98 in the forward tables. -/
theorem binding_uniqueness_counterexample :
    (collideStep1.2 = true ∧
      dget collideStep1.1.key_bindings 1 = some 98 ∧
      dget collideStep1.1.key_bindings 2 = some 98) ∧
    (collideStep2.2 = true ∧ collideStep3.2 = true ∧
      dget collideStep3.1.key_bindings 1 = some 98 ∧
      dget collideStep3.1.special_key_bindings "copy_current" = some 98) := by
  decide

/-- Claim C1 (amended): the forward tables satisfy no uniqueness
invariant — two distinct pins can share a VK code after one successful
bind, and a pin and a special action can share one after three (see the
counterexample).  What the operations do maintain, after every mutating
operation including failure paths, is disjointness of the two reverse
dispatch maps: for every sequence of bind and unbind operations starting
from the default bindings, a VK code registered in `vk_to_pin` is never
simultaneously registered in `vk_to_special`, so a key event is never
dispatchable both as a pin action and as a special action. -/
theorem binding_cross_uniqueness (ops : List BindOp) (vk : Nat)
    (h : (dget (runBindOps defaultHandler ops).vk_to_pin vk).isSome) :
    dget (runBindOps defaultHandler ops).vk_to_special vk = none := by
  have hcd := crossDisjoint_runBindOps defaultHandler ops crossDisjoint_default
  cases ho : dget (runBindOps defaultHandler ops).vk_to_special vk with
  | none => rfl
  | some a => exact (hcd vk h (by rw [ho]; rfl)).elim

/-- Witness for the amended C1 theorem: after the empty operation
sequence, VK 97 is owned by a pin and by no special action. -/
theorem binding_cross_uniqueness_witness :
    (dget (runBindOps defaultHandler []).vk_to_pin 97).isSome = true ∧
    dget (runBindOps defaultHandler []).vk_to_special 97 = none :=
  ⟨by decide, binding_cross_uniqueness [] 97 (by decide)⟩

/-- Claim C2, counterexample: in the default state VK 98 is owned by pin 2,
yet `set_key_binding(1, key with VK 98)` reports success instead of a
conflict, and silently evicts pin 2 from the reverse map (`vk_to_pin[98]`
now names pin 1 while `key_bindings[2]` still holds VK 98). -/
theorem conflict_rejection_counterexample :
    dget defaultHandler.key_bindings 2 = some 98 ∧
    (defaultHandler.set_key_binding 1 (some 98)).2 = true ∧
    dget (defaultHandler.set_key_binding 1 (some 98)).1.vk_to_pin 98 = some 1 ∧
    dget (defaultHandler.set_key_binding 1 (some 98)).1.key_bindings 2 = some 98 := by
  decide

/-- Claim C2 (amended): a bind is rejected only for cross-category
conflicts — `set_key_binding` fails, with the whole state unchanged, when
the VK code is owned by a special action, and `set_special_key_binding`
fails, with the whole state unchanged, when the VK code is owned by a pin.
A VK code owned by a different action of the same category is not
rejected: the bind succeeds and silently takes over the reverse mapping,
as the counterexample shows. -/
theorem cross_conflict_rejection (kh : KeyboardHandler) (pin_number : Nat)
    (action : String) (vk : Nat) :
    ((dget kh.vk_to_special vk).isSome →
        kh.set_key_binding pin_number (some vk) = (kh, false)) ∧
    ((dget kh.vk_to_pin vk).isSome →
        kh.set_special_key_binding action (some vk) = (kh, false)) := by
  constructor
  · intro hg
    unfold KeyboardHandler.set_key_binding
    by_cases hr : 1 ≤ pin_number ∧ pin_number ≤ 9
    · rw [if_neg (not_not_intro hr)]
      dsimp only
      rw [if_pos hg]
    · rw [if_pos hr]
  · intro hg
    unfold KeyboardHandler.set_special_key_binding
    by_cases hr : action ∈ validActions
    · rw [if_neg (not_not_intro hr)]
      dsimp only
      rw [if_pos hg]
    · rw [if_pos hr]

/-- Witness for the amended C2 theorem at concrete inputs: VK 110 is the
default `copy_current` key and is rejected for pin 1; VK 97 is the default
pin 1 key and is rejected for `toggle_flight`. -/
theorem cross_conflict_rejection_witness :
    (dget defaultHandler.vk_to_special 110).isSome = true ∧
    defaultHandler.set_key_binding 1 (some 110) = (defaultHandler, false) ∧
    (dget defaultHandler.vk_to_pin 97).isSome = true ∧
    defaultHandler.set_special_key_binding "toggle_flight" (some 97) =
      (defaultHandler, false) :=
  ⟨by decide,
   (cross_conflict_rejection defaultHandler 1 "toggle_flight" 110).1 (by decide),
   by decide,
   (cross_conflict_rejection defaultHandler 1 "toggle_flight" 97).2 (by decide)⟩

/-- Claim C3, counterexample: with a live client whose UDP transmit
raises, `send_flying_mode` reports that the send could not be performed
(it returns `False`), yet `_toggle_flight_mode` — which discards the
send's result and only pre-checks `client` — keeps the flipped intent
flag and reports success, so the local bit diverges from what was
actually sent on this failed send. -/
theorem toggle_revert_counterexample :
    OSCController.send_flying_mode (OSCController.mk true) true false = false ∧
    initHandler.flight_mode_enabled = false ∧
    (toggle_flight_mode initHandler (OSCController.mk true) false).1.flight_mode_enabled
        = true ∧
    (toggle_flight_mode initHandler (OSCController.mk true) false).2 = true := by
  decide

/-- Claim C3 (amended): the revert-and-report-failure behavior holds
exactly for the channel-unavailable failure, the case the source
pre-checks: with no OSC client, `_toggle_flight_mode` and
`_toggle_lookatme` leave their intent flag at its pre-call value and
report failure, whatever the transport would have done.  When a client
exists but the transmit itself fails (`send_flying_mode`'s `except`
branch returning `False`), the source ignores the send's result, keeps
the flipped flag and reports success, as the counterexample shows. -/
theorem toggle_revert_on_failure (kh : KeyboardHandler) (osc : OSCController)
    (transport_ok : Bool) (h : osc.client = false) :
    (toggle_flight_mode kh osc transport_ok).1.flight_mode_enabled =
        kh.flight_mode_enabled ∧
    (toggle_flight_mode kh osc transport_ok).2 = false ∧
    (toggle_lookatme kh osc transport_ok).1.lookatme_enabled =
        kh.lookatme_enabled ∧
    (toggle_lookatme kh osc transport_ok).2 = false := by
  simp [toggle_flight_mode, toggle_lookatme, h]

/-- Witness for the amended C3 theorem: with no OSC client, toggling from
the default state reverts both flags and reports failure. -/
theorem toggle_revert_on_failure_witness :
    (OSCController.mk false).client = false ∧
    ((toggle_flight_mode defaultHandler (OSCController.mk false) true).1.flight_mode_enabled
        = defaultHandler.flight_mode_enabled ∧
      (toggle_flight_mode defaultHandler (OSCController.mk false) true).2 = false ∧
      (toggle_lookatme defaultHandler (OSCController.mk false) true).1.lookatme_enabled
        = defaultHandler.lookatme_enabled ∧
      (toggle_lookatme defaultHandler (OSCController.mk false) true).2 = false) :=
  ⟨rfl, toggle_revert_on_failure defaultHandler (OSCController.mk false) true rfl⟩

/-- Claim C4: releasing a bound pin key that is currently pressed (with a
recorded press time) yields exactly one outcome, chosen by comparing the
held duration against the threshold current at release time: the pin-save
action when `duration ≥ long_press_threshold`, the pin-recall action
otherwise. -/
theorem press_release_classification (kh : KeyboardHandler) (vk : Nat) (now t : ℚ)
    (pin : Nat)
    (hp : vk ∈ kh.pressed_keys)
    (ht : dget kh.key_press_times vk = some t)
    (hb : dget kh.vk_to_pin vk = some pin) :
    (handle_key_release kh vk now).2 =
      some (if now - t ≥ kh.long_press_threshold then Outcome.savePin pin
            else Outcome.moveToPin pin) := by
  unfold handle_key_release
  rw [if_pos hp]
  dsimp only
  rw [ht]
  dsimp only
  rw [hb]
  dsimp only
  by_cases hd : now - t ≥ kh.long_press_threshold
  · rw [if_pos hd, if_pos hd]
  · rw [if_neg hd, if_neg hd]

/-- Witness for C4, the concrete scenario of the claim: with the default
bindings (threshold 0.8, numpad key VK 97 bound to pin 1), pressing at
`t = 0` and releasing at `t = 0.5` recalls pin 1 exactly once, and
releasing at `t = 1.0` saves pin 1 exactly once. -/
theorem press_release_classification_witness :
    (97 ∈ (handle_key_press defaultHandler 97 0).pressed_keys ∧
      dget (handle_key_press defaultHandler 97 0).key_press_times 97 = some 0 ∧
      dget (handle_key_press defaultHandler 97 0).vk_to_pin 97 = some 1) ∧
    (handle_key_release (handle_key_press defaultHandler 97 0) 97 (1/2)).2 =
      some (Outcome.moveToPin 1) ∧
    (handle_key_release (handle_key_press defaultHandler 97 0) 97 1).2 =
      some (Outcome.savePin 1) := by
  have hth : (handle_key_press defaultHandler 97 0).long_press_threshold = 0.8 := rfl
  refine ⟨⟨by decide, rfl, by decide⟩, ?_, ?_⟩
  · have h := press_release_classification (handle_key_press defaultHandler 97 0)
      97 (1/2) 0 1 (by decide) rfl (by decide)
    rw [h, hth, if_neg (by norm_num)]
  · have h := press_release_classification (handle_key_press defaultHandler 97 0)
      97 1 0 1 (by decide) rfl (by decide)
    rw [h, hth, if_pos (by norm_num)]

/-- Camera parameters lying within the validator's four fixed ranges. -/
def paramsInRange (p : CameraParams) : Prop :=
  ZOOM_RANGE.1 ≤ p.zoom ∧ p.zoom ≤ ZOOM_RANGE.2 ∧
  FOCAL_DISTANCE_RANGE.1 ≤ p.focal_distance ∧
  p.focal_distance ≤ FOCAL_DISTANCE_RANGE.2 ∧
  APERTURE_RANGE.1 ≤ p.aperture ∧ p.aperture ≤ APERTURE_RANGE.2 ∧
  EXPOSURE_RANGE.1 ≤ p.exposure ∧ p.exposure ≤ EXPOSURE_RANGE.2

theorem clamp_le_right (lo hi x : ℚ) (h : lo ≤ hi) : max lo (min hi x) ≤ hi :=
  max_le h (min_le_left _ _)

theorem clamp_eq_self (lo hi x : ℚ) (h1 : lo ≤ x) (h2 : x ≤ hi) :
    max lo (min hi x) = x := by
  rw [min_eq_right h2]
  exact max_eq_right h1

theorem paramsInRange_validate (p : CameraParams) :
    paramsInRange (validate_camera_params p) := by
  unfold paramsInRange validate_camera_params validate_zoom validate_focal_distance
    validate_aperture validate_exposure
  refine ⟨le_max_left _ _, clamp_le_right _ _ _ (by norm_num [ZOOM_RANGE]),
    le_max_left _ _, clamp_le_right _ _ _ (by norm_num [FOCAL_DISTANCE_RANGE]),
    le_max_left _ _, clamp_le_right _ _ _ (by norm_num [APERTURE_RANGE]),
    le_max_left _ _, clamp_le_right _ _ _ (by norm_num [EXPOSURE_RANGE])⟩

/-- Claim C6: `validate_camera_params` clamps each field independently
into its fixed range (zoom into `[20, 150]`, focal distance into
`[0, 10]`, aperture into `[1.4, 32]`, exposure into `[-10, 4]`), and is
the identity on parameters already in range. -/
theorem camera_params_clamp_correct (p : CameraParams) :
    paramsInRange (validate_camera_params p) ∧
    (paramsInRange p → validate_camera_params p = p) := by
  refine ⟨paramsInRange_validate p, fun hin => ?_⟩
  obtain ⟨h1, h2, h3, h4, h5, h6, h7, h8⟩ := hin
  unfold validate_camera_params validate_zoom validate_focal_distance
    validate_aperture validate_exposure
  rw [clamp_eq_self _ _ _ h1 h2, clamp_eq_self _ _ _ h3 h4,
    clamp_eq_self _ _ _ h5 h6, clamp_eq_self _ _ _ h7 h8]

/-- Witness for C6 at the default camera parameters, which are in range
and therefore fixed by validation. -/
theorem camera_params_clamp_correct_witness :
    paramsInRange (CameraParams.mk 45 1.5 15 0) ∧
    validate_camera_params (CameraParams.mk 45 1.5 15 0) =
      CameraParams.mk 45 1.5 15 0 := by
  have hin : paramsInRange (CameraParams.mk 45 1.5 15 0) := by
    norm_num [paramsInRange, ZOOM_RANGE, FOCAL_DISTANCE_RANGE, APERTURE_RANGE,
      EXPOSURE_RANGE]
  exact ⟨hin, (camera_params_clamp_correct _).2 hin⟩

/-- Claim C7: a pose telemetry message with fewer than six arguments is
dropped — the receiver state (hence the cached pose) is unchanged and a
subsequent `get_current_state` read returns exactly what it returned
before the message. -/
theorem malformed_pose_dropped (r : OSCReceiver) (args : List ℚ) (now : ℚ)
    (h : args.length < 6) :
    r.handle_pose args now = r ∧
    (r.handle_pose args now).get_current_state = r.get_current_state := by
  have he : r.handle_pose args now = r := by
    unfold OSCReceiver.handle_pose
    rw [if_neg (by omega)]
  exact ⟨he, by rw [he]⟩

/-- Witness for C7: a two-argument pose message leaves a receiver holding
a six-value pose untouched. -/
theorem malformed_pose_dropped_witness :
    ([(1 : ℚ), 2]).length < 6 ∧
    OSCReceiver.handle_pose (OSCReceiver.mk (some [0, 0, 0, 0, 0, 0]) [] 0) [1, 2] 5 =
      OSCReceiver.mk (some [0, 0, 0, 0, 0, 0]) [] 0 ∧
    (OSCReceiver.handle_pose (OSCReceiver.mk (some [0, 0, 0, 0, 0, 0]) [] 0)
        [1, 2] 5).get_current_state =
      (OSCReceiver.mk (some [0, 0, 0, 0, 0, 0]) [] 0).get_current_state := by
  have h := malformed_pose_dropped (OSCReceiver.mk (some [0, 0, 0, 0, 0, 0]) [] 0)
    [1, 2] 5 (by decide)
  exact ⟨by decide, h.1, h.2⟩

/-- Claim C8: a second `_handle_key_press` for a key already pressed is a
no-op (so the recorded press time stays that of the first press), and a
fresh press records its timestamp. -/
theorem repeat_press_idempotence (kh : KeyboardHandler) (vk : Nat) (t1 t2 : ℚ) :
    handle_key_press (handle_key_press kh vk t1) vk t2 = handle_key_press kh vk t1 ∧
    (vk ∉ kh.pressed_keys →
      dget (handle_key_press kh vk t1).key_press_times vk = some t1) := by
  constructor
  · by_cases h : vk ∈ kh.pressed_keys
    · have h1 : handle_key_press kh vk t1 = kh := by
        unfold handle_key_press
        rw [if_pos h]
      rw [h1]
      unfold handle_key_press
      rw [if_pos h]
    · have h1 : handle_key_press kh vk t1 =
          { kh with
              pressed_keys := vk :: kh.pressed_keys
              key_press_times := dinsert kh.key_press_times vk t1 } := by
        unfold handle_key_press
        rw [if_neg h]
      rw [h1]
      unfold handle_key_press
      rw [if_pos (List.mem_cons_self vk kh.pressed_keys)]
  · intro h
    unfold handle_key_press
    rw [if_neg h]
    dsimp only
    exact dget_dinsert_self _ _ _

/-- Witness for C8: pressing VK 97 at time 3 on the fresh handler records
press time 3. -/
theorem repeat_press_idempotence_witness :
    97 ∉ initHandler.pressed_keys ∧
    dget (handle_key_press initHandler 97 3).key_press_times 97 = some 3 :=
  ⟨by decide, (repeat_press_idempotence initHandler 97 3 0).2 (by decide)⟩

/-- Claim C9: encoding a camera state with `create_clipboard_data` and
decoding the result with `parse_clipboard_data` returns exactly the
original state. -/
theorem clipboard_round_trip (state : CameraState) :
    parse_clipboard_data (create_clipboard_data state) = some state := rfl

/-- Every state in the pin store has camera parameters within the
validator's ranges. -/
def PinStoreValid (m : CameraDataManager) : Prop :=
  ∀ p ∈ m.pin_states, paramsInRange p.2.camera_params

theorem pinStoreValid_save (m : CameraDataManager) (pin_number : Nat)
    (state : CameraState) (description : String) (h : PinStoreValid m) :
    PinStoreValid (save_pin_state m pin_number state description).1 := by
  unfold save_pin_state
  by_cases hr : 1 ≤ pin_number ∧ pin_number ≤ 9
  · rw [if_neg (not_not_intro hr)]
    dsimp only
    have key : ∀ q ∈ dinsert m.pin_states pin_number
        (CameraState.mk state.position state.rotation
          (validate_camera_params state.camera_params)),
        paramsInRange q.2.camera_params := by
      intro q hq
      rcases mem_dinsert _ _ _ _ hq with hq' | hq'
      · exact h q hq'
      · rw [hq']
        exact paramsInRange_validate _
    by_cases hd : description.trim ≠ ""
    · rw [if_pos hd]
      exact key
    · rw [if_neg hd]
      exact key
  · rw [if_pos hr]
    exact h

theorem pinStoreValid_delete (m : CameraDataManager) (pin_number : Nat)
    (h : PinStoreValid m) : PinStoreValid (delete_pin_state m pin_number).1 := by
  unfold delete_pin_state
  match hk : dget m.pin_states pin_number with
  | some st =>
    intro q hq
    exact h q (mem_ddel _ _ _ hq)
  | none => exact h

theorem pinStoreValid_load_saved_poses (poses : Dict Nat JValue)
    (m : CameraDataManager) (h : PinStoreValid m) :
    PinStoreValid (load_saved_poses m poses) := by
  induction poses generalizing m with
  | nil => exact h
  | cons p rest ih =>
    obtain ⟨pin_num, state_data⟩ := p
    unfold load_saved_poses
    by_cases hr : 1 ≤ pin_num ∧ pin_num ≤ 9
    · rw [if_pos hr]
      match hs : stateFromData state_data with
      | some state =>
        dsimp only
        apply ih
        intro q hq
        rcases mem_dinsert _ _ _ _ hq with hq' | hq'
        · exact h q hq'
        · rw [hq']
          exact paramsInRange_validate _
      | none => exact ih _ h
    · rw [if_neg hr]
      exact ih _ h

theorem load_descriptions_pin_states (l : Dict Nat String) (m : CameraDataManager) :
    (load_descriptions m l).pin_states = m.pin_states := by
  induction l generalizing m with
  | nil => rfl
  | cons p rest ih =>
    obtain ⟨pin_num, desc⟩ := p
    unfold load_descriptions
    by_cases hr : 1 ≤ pin_num ∧ pin_num ≤ 9
    · rw [if_pos hr]
      exact (ih _).trans rfl
    · rw [if_neg hr]
      exact ih _

/-- Claim C10: the pin store only ever holds camera parameters inside the
validation ranges — `save_pin_state` clamps before storing and rejects
out-of-range pin numbers without touching the store, `delete_pin_state`
only removes entries, and `load_data` clamps every loaded pin — so the
invariant is preserved by every operation that mutates the store. -/
theorem pin_store_validated (m : CameraDataManager) (pin_number : Nat)
    (state : CameraState) (description : String) (saved_poses : Dict Nat JValue)
    (descriptions : Dict Nat String) :
    (PinStoreValid m →
      PinStoreValid (save_pin_state m pin_number state description).1) ∧
    (¬(1 ≤ pin_number ∧ pin_number ≤ 9) →
      save_pin_state m pin_number state description = (m, false)) ∧
    (PinStoreValid m → PinStoreValid (delete_pin_state m pin_number).1) ∧
    (PinStoreValid m → PinStoreValid (load_data m saved_poses descriptions)) := by
  refine ⟨pinStoreValid_save m _ _ _, ?_, pinStoreValid_delete m _, ?_⟩
  · intro hr
    unfold save_pin_state
    rw [if_pos hr]
  · intro h
    unfold load_data
    intro q hq
    rw [load_descriptions_pin_states] at hq
    exact pinStoreValid_load_saved_poses saved_poses m h q hq

/-- Witness for C10: on the empty manager, a pin number outside 1–9 is
rejected, and saving to pin 3 as well as loading an empty file keep the
store invariant. -/
theorem pin_store_validated_witness :
    PinStoreValid (CameraDataManager.mk [] []) ∧
    save_pin_state (CameraDataManager.mk [] []) 0 (CameraState.mk {} {} {}) "" =
      (CameraDataManager.mk [] [], false) ∧
    PinStoreValid
      (save_pin_state (CameraDataManager.mk [] []) 3 (CameraState.mk {} {} {}) "").1 ∧
    PinStoreValid (load_data (CameraDataManager.mk [] []) [] []) := by
  have hempty : PinStoreValid (CameraDataManager.mk [] []) := by
    intro q hq
    simp at hq
  have h := pin_store_validated (CameraDataManager.mk [] []) 0
    (CameraState.mk {} {} {}) "" [] []
  have h3 := pin_store_validated (CameraDataManager.mk [] []) 3
    (CameraState.mk {} {} {}) "" [] []
  exact ⟨hempty, h.2.1 (by decide), h3.1 hempty, h.2.2.2 hempty⟩

/-- The handler state reached from the defaults by unbinding all nine
pins. -/
def allPinsRemoved : KeyboardHandler :=
  runBindOps defaultHandler ((List.range 9).map (fun i => BindOp.removeKey (i + 1)))

/-- The handler state reached from the defaults by binding pin 1 to VK 98
(the key still held by pin 2 in the forward map). -/
def duplicateVkHandler : KeyboardHandler :=
  runBindOps defaultHandler [BindOp.setKey 1 (some 98)]

/-- Claim C5, counterexample: the save/load round trip fails on two
reachable configurations.  With every pin unbound, `load_config` sees an
empty pin map and replaces the whole table with the defaults.  With pins 1
and 2 sharing VK 98, the reloaded reverse map resolves VK 98 to pin 2
while the original resolved it to pin 1. -/
theorem config_round_trip_counterexample :
    (allPinsRemoved.key_bindings = [] ∧
      (allPinsRemoved.load_config allPinsRemoved.save_config).key_bindings ≠
        allPinsRemoved.key_bindings) ∧
    (duplicateVkHandler.load_config duplicateVkHandler.save_config).vk_to_pin ≠
      duplicateVkHandler.vk_to_pin := by
  decide

theorem dkeys_append {α β : Type} (a b : Dict α β) :
    dkeys (a ++ b) = dkeys a ++ dkeys b := List.map_append _ _ _

theorem foldl_dinsert_eq_append {α β : Type} [DecidableEq α] (l : Dict α β)
    (acc : Dict α β) (hnd : (dkeys l).Nodup)
    (hdisj : ∀ k ∈ dkeys l, k ∉ dkeys acc) :
    l.foldl (fun d p => dinsert d p.1 p.2) acc = acc ++ l := by
  induction l generalizing acc with
  | nil => simp
  | cons p rest ih =>
    obtain ⟨k, v⟩ := p
    rw [dkeys_cons] at hnd
    have hk : k ∉ dkeys rest := (List.nodup_cons.mp hnd).1
    have hnd' : (dkeys rest).Nodup := (List.nodup_cons.mp hnd).2
    have hdisj' : ∀ k' ∈ dkeys rest, k' ∉ dkeys (acc ++ [(k, v)]) := by
      intro k' hk'
      rw [dkeys_append, List.mem_append]
      push_neg
      refine ⟨hdisj k' (by rw [dkeys_cons]; exact List.mem_cons_of_mem _ hk'), ?_⟩
      simp only [dkeys, List.map_cons, List.map_nil, List.mem_singleton]
      intro he
      exact hk (he ▸ hk')
    rw [List.foldl_cons,
      dinsert_eq_append _ _ _ (hdisj k (by rw [dkeys_cons]; exact List.mem_cons_self _ _)),
      ih _ hnd' hdisj']
    simp

theorem loadPinBindingsLoop_eq (l : Dict Nat Nat) (kb vp : Dict Nat Nat)
    (h : ∀ p ∈ l, 1 ≤ p.1 ∧ p.1 ≤ 9) :
    loadPinBindingsLoop l (kb, vp) =
      (l.foldl (fun d p => dinsert d p.1 p.2) kb,
       l.foldl (fun d p => dinsert d p.2 p.1) vp) := by
  induction l generalizing kb vp with
  | nil => rfl
  | cons p rest ih =>
    obtain ⟨pin_num, vk⟩ := p
    unfold loadPinBindingsLoop
    rw [if_pos (h (pin_num, vk) (List.mem_cons_self _ _))]
    rw [ih _ _ (fun q hq => h q (List.mem_cons_of_mem _ hq))]
    rw [List.foldl_cons, List.foldl_cons]

theorem loadSpecialBindingsLoop_eq (l : Dict String Nat) (sb : Dict String Nat)
    (vs : Dict Nat String) :
    loadSpecialBindingsLoop l (sb, vs) =
      (l.foldl (fun d p => dinsert d p.1 p.2) sb,
       l.foldl (fun d p => dinsert d p.2 p.1) vs) := by
  induction l generalizing sb vs with
  | nil => rfl
  | cons p rest ih =>
    obtain ⟨action, vk⟩ := p
    unfold loadSpecialBindingsLoop
    rw [ih]
    rw [List.foldl_cons, List.foldl_cons]

/-- Claim C5 (amended): saving and reloading reproduces the handler —
bindings (both forward and reverse maps), threshold and toggle flags —
provided at least one pin binding and at least one special binding exist
(with both maps empty-free `load_config` replaces the table with the
defaults, first counterexample) and the reverse maps agree with the
reverse maps `load_config` rebuilds from the forward maps (when two slots
share a VK code the rebuilt reverse map can differ from the original,
second counterexample).  The key-distinctness hypotheses are Python dict
well-formedness; the slot-range hypothesis holds for every state the
handler constructs. -/
theorem config_round_trip (kh : KeyboardHandler)
    (hk : ∀ p ∈ kh.key_bindings, 1 ≤ p.1 ∧ p.1 ≤ 9)
    (hknd : (dkeys kh.key_bindings).Nodup)
    (hsnd : (dkeys kh.special_key_bindings).Nodup)
    (hkne : kh.key_bindings ≠ [])
    (hsne : kh.special_key_bindings ≠ [])
    (hvp : kh.vk_to_pin = rebuildVkToPin kh.key_bindings)
    (hvs : kh.vk_to_special = rebuildVkToSpecial kh.special_key_bindings) :
    kh.load_config kh.save_config = kh := by
  unfold KeyboardHandler.load_config KeyboardHandler.save_config
  dsimp only
  rw [loadPinBindingsLoop_eq _ _ _ hk, loadSpecialBindingsLoop_eq]
  dsimp only
  rw [foldl_dinsert_eq_append _ _ hknd (by intro k hk'; simp [dkeys]),
    foldl_dinsert_eq_append _ _ hsnd (by intro k hk'; simp [dkeys])]
  rw [List.nil_append, List.nil_append]
  rw [show (List.foldl (fun d p => dinsert d p.2 p.1) [] kh.key_bindings) =
      rebuildVkToPin kh.key_bindings from rfl]
  rw [show (List.foldl (fun d p => dinsert d p.2 p.1) [] kh.special_key_bindings) =
      rebuildVkToSpecial kh.special_key_bindings from rfl]
  rw [← hvp, ← hvs]
  rw [if_neg (by push_neg; exact ⟨hkne, hsne⟩)]

/-- Witness for the amended C5 theorem: the default handler satisfies
every hypothesis and survives the save/load round trip unchanged. -/
theorem config_round_trip_witness :
    ((∀ p ∈ defaultHandler.key_bindings, 1 ≤ p.1 ∧ p.1 ≤ 9) ∧
      (dkeys defaultHandler.key_bindings).Nodup ∧
      (dkeys defaultHandler.special_key_bindings).Nodup ∧
      defaultHandler.key_bindings ≠ [] ∧
      defaultHandler.special_key_bindings ≠ [] ∧
      defaultHandler.vk_to_pin = rebuildVkToPin defaultHandler.key_bindings ∧
      defaultHandler.vk_to_special =
        rebuildVkToSpecial defaultHandler.special_key_bindings) ∧
    defaultHandler.load_config defaultHandler.save_config = defaultHandler :=
  ⟨⟨by decide, by decide, by decide, by decide, by decide, by decide, by decide⟩,
   config_round_trip defaultHandler (by decide) (by decide) (by decide) (by decide)
     (by decide) (by decide) (by decide)⟩

end VRCamOSC
